import Mathlib

/-!
Shallow embedding of the Fire TV integration client (`uc_intg_firetv`):
the REST client `FireTVClient` (transport selection, headers, pairing,
connectivity probe, command dispatch with wake/retry) and the driver's
setup flow, together with theorems settling the specification claims.

Network I/O is modelled by an oracle `Nat → Outcome` giving the outcome of
the i-th underlying HTTP attempt made by the function under study.
-/

namespace FireTV

/-- Outcome of one underlying HTTP request attempt.
`response s b` : the device answered with HTTP status `s`; `b` is the
value of the `description` field of the JSON body when present (only
`verify_pin` reads a body).  `timeout` : `asyncio.TimeoutError`.
`connError` : `aiohttp.ClientConnectorError`.
`serverDisconnected` : `aiohttp.ServerDisconnectedError`.
`otherError` : any other exception. -/
inductive Outcome where
  | response (status : Nat) (body : Option String)
  | timeout
  | connError
  | serverDisconnected
  | otherError
deriving DecidableEq, Repr

/-- Python port argument: `FireTVClient.__init__` declares `port : int` but a
caller can bind any value positionally, as `_initialize_entities` does with
the token string. -/
inductive PortVal where
  | int (n : Nat)
  | str (s : String)
deriving DecidableEq, Repr

/-- The fixed API key from `FireTVClient.__init__`. -/
def apiKey : String := "0987654321"

/-- `self._wake_timeout = 25 * 60` (seconds). -/
def wakeTimeout : Int := 25 * 60

/-- The observable state set up by `FireTVClient.__init__(host, port=8080,
token=None)`. -/
structure Client where
  host : String
  port : PortVal
  token : Option String
  useHttps : Bool
deriving DecidableEq, Repr

/-- The loopback-class hosts from `FireTVClient.__init__`. -/
def loopbackHosts : List String := ["localhost", "127.0.0.1", "0.0.0.0"]

/-- ASCII lower-casing of one character, as Python's `str.lower()` acts on
the ASCII hostname strings this client receives. -/
def lowerChar (c : Char) : Char :=
  if 'A' ≤ c && c ≤ 'Z' then Char.ofNat (c.toNat + 32) else c

/-- `host.lower()` for ASCII host strings. -/
def pyLower (s : String) : String := ⟨s.data.map lowerChar⟩

/-- `FireTVClient.__init__`: `if host.lower() in ['localhost', '127.0.0.1',
'0.0.0.0']` selects HTTP, otherwise HTTPS. -/
def mkClient (host : String) (port : PortVal) (token : Option String) : Client :=
  { host := host, port := port, token := token,
    useHttps := !(loopbackHosts.contains (pyLower host)) }

/-- The client construction `FireTVClient(host, token)` performed by
`_initialize_entities` in `driver.py`: both arguments are positional, so the
saved token string binds to the `port` parameter and `token` keeps its
default `None`. -/
def initializeEntitiesClient (host savedToken : String) : Client :=
  mkClient host (PortVal.str savedToken) none

/-- The client construction `FireTVClient(host)` performed in `setup_handler`. -/
def setupClient (host : String) : Client :=
  mkClient host (PortVal.int 8080) none

/-- Python truthiness of `self.token`: `None` and the empty string are falsy. -/
def tokenTruthy : Option String → Bool
  | none => false
  | some t => !(t == "")

/-- `FireTVClient._get_headers(include_token)`: the fixed headers, plus
`X-Client-Token` when `include_token and self.token`. -/
def getHeaders (c : Client) (includeToken : Bool) : List (String × String) :=
  let base := [("X-Api-Key", apiKey),
               ("Content-Type", "application/json"),
               ("User-Agent", "okhttp/4.10.0")]
  if includeToken && tokenTruthy c.token then
    base ++ [("X-Client-Token", c.token.getD "")]
  else
    base

/-- `ssl.VerifyMode` values relevant to `_ensure_session`. -/
inductive VerifyMode where
  | certNone
  | certOptional
  | certRequired
deriving DecidableEq, Repr

/-- The transport a session is built with by `FireTVClient._ensure_session`. -/
inductive Transport where
  | http
  | https (checkHostname : Bool) (verifyMode : VerifyMode)
deriving DecidableEq, Repr

/-- `FireTVClient._ensure_session`: HTTPS clients get an SSL context with
`check_hostname = False` and `verify_mode = ssl.CERT_NONE`; loopback clients
get a plain HTTP connector. -/
def ensureSessionTransport (c : Client) : Transport :=
  if c.useHttps then Transport.https false VerifyMode.certNone
  else Transport.http

/-- `FireTVClient._should_wake_device`: wake when `last_command_time == 0`
or `now - last_command_time > wake_timeout`. -/
def shouldWakeDevice (last now : Int) : Bool :=
  last == 0 || now - last > wakeTimeout

/-- `FireTVClient.request_pin(friendly_name="UC Remote")` as written in
`client.py`: a single POST to `/v1/FireTV/pin/display`; returns `True` iff
the response status is 200, `False` on any other status, timeout or
exception.  It accepts no `max_retries` or `retry_delay` parameter and
never returns a PIN value. -/
def requestPin (outcomes : Nat → Outcome) : Bool :=
  match outcomes 0 with
  | Outcome.response s _ => s == 200
  | _ => false

/-- The parameter names `FireTVClient.request_pin` accepts besides `self`. -/
def requestPinParamNames : List String := ["friendly_name"]

/-- The keyword-argument names used at the call
`test_client.request_pin("UC Remote", max_retries=5, retry_delay=3.5)`
in `setup_handler` (`driver.py`). -/
def driverRequestPinKwargs : List String := ["max_retries", "retry_delay"]

/-- Python keyword binding: a call raises `TypeError` unless every keyword
argument names a declared parameter. -/
def kwargsAccepted (params kwargs : List String) : Bool :=
  kwargs.all (fun k => params.contains k)

/-- `FireTVClient.verify_pin(pin)`: a single POST to `/v1/FireTV/pin/verify`;
on HTTP 200 returns `data.get('description')`, on any other status or any
exception returns `None`.  Only the first attempt outcome is ever consumed. -/
def verifyPin (outcomes : Nat → Outcome) : Option String :=
  match outcomes 0 with
  | Outcome.response s b => if s == 200 then b else none
  | _ => none

/-- The status set `[200, 400, 401, 403, 404, 405]` accepted as "reachable"
by `FireTVClient.test_connection`. -/
def acceptedStatus (s : Nat) : Bool :=
  [200, 400, 401, 403, 404, 405].contains s

/-- Whether an attempt outcome makes `test_connection` return `True`. -/
def acceptedOutcome : Outcome → Bool
  | Outcome.response s _ => acceptedStatus s
  | _ => false

/-- Whether an attempt outcome carried an HTTP response at all (as opposed
to a timeout or connector-level failure). -/
def producedResponse : Outcome → Bool
  | Outcome.response _ _ => true
  | _ => false

/-- Loop body of `FireTVClient.test_connection`: attempt `i` (0-based) with
`rem` attempts remaining; an accepted status returns `True` at once, every
other outcome (unexpected status, timeout, connector error, other
exception) falls through to the next attempt.  Returns the result and the
number of attempts made. -/
def testConnectionGo (outcomes : Nat → Outcome) : Nat → Nat → Bool × Nat
  | i, 0 => (false, i)
  | i, rem + 1 =>
    if acceptedOutcome (outcomes i) then (true, i + 1)
    else testConnectionGo outcomes (i + 1) rem

/-- `FireTVClient.test_connection(max_retries, retry_delay)` together with
the number of attempts it performed. -/
def testConnectionFull (maxRetries : Nat) (outcomes : Nat → Outcome) : Bool × Nat :=
  testConnectionGo outcomes 0 maxRetries

/-- The boolean result of `FireTVClient.test_connection`. -/
def testConnection (maxRetries : Nat) (outcomes : Nat → Outcome) : Bool :=
  (testConnectionFull maxRetries outcomes).1

/-- Result of `FireTVClient._send_command_with_retry`. -/
inductive DispatchResult where
  /-- `command_func` completed (status < 400): its boolean return value,
  `status == 200`. -/
  | success (ok : Bool)
  /-- `TokenInvalidError` raised on HTTP 401/403. -/
  | tokenInvalid
  /-- `aiohttp.ClientResponseError` re-raised for another status ≥ 400. -/
  | httpError (status : Nat)
  /-- connector-level failure re-raised after the final attempt. -/
  | connFailed
  /-- any other exception (including a timeout) re-raised. -/
  | otherFailed
  /-- `max_retries = 0`: the loop body never runs and Python returns `None`. -/
  | noAttempt
deriving DecidableEq, Repr

/-- Observable trace of one `_send_command_with_retry` call. -/
structure DispatchTrace where
  result : DispatchResult
  /-- number of `command_func` invocations. -/
  attempts : Nat
  /-- whether the initial wake step (wake + pause + session recreation)
  ran before the first attempt. -/
  initialWake : Bool
  /-- number of wake + session-recreation steps between attempts. -/
  retryWakes : Nat
  /-- whether `_update_command_time` ran. -/
  clockUpdated : Bool
  /-- `self._last_command_time` after the call. -/
  lastCommandTime : Int
deriving DecidableEq, Repr

/-- Whether a connector-level exception class is caught by the retry
branch of `_send_command_with_retry`. -/
def isConnectorFailure : Outcome → Bool
  | Outcome.connError => true
  | Outcome.serverDisconnected => true
  | _ => false

/-- Retry loop of `_send_command_with_retry`: attempt index `i` (0-based),
`rem` attempts remaining, `w` retry wakes so far.  `command_func` raises
`ClientResponseError` (via `raise_for_status`) iff the status is ≥ 400,
otherwise returns `status == 200` and `_update_command_time` runs.
HTTP 401/403 raise `TokenInvalidError` at once; other HTTP errors re-raise;
connector failures wake + recreate and retry while attempts remain;
every other exception (timeouts included) re-raises. -/
def retryLoop (outcomes : Nat → Outcome) (now last : Int) :
    Nat → Nat → Nat → DispatchResult × Nat × Nat × Bool × Int
  | i, 0, w => (DispatchResult.noAttempt, i, w, false, last)
  | i, rem + 1, w =>
    match outcomes i with
    | Outcome.response s _ =>
      if s ≥ 400 then
        if s == 401 || s == 403 then
          (DispatchResult.tokenInvalid, i + 1, w, false, last)
        else
          (DispatchResult.httpError s, i + 1, w, false, last)
      else
        (DispatchResult.success (s == 200), i + 1, w, true, now)
    | Outcome.timeout => (DispatchResult.otherFailed, i + 1, w, false, last)
    | Outcome.otherError => (DispatchResult.otherFailed, i + 1, w, false, last)
    | Outcome.connError =>
      if rem > 0 then retryLoop outcomes now last (i + 1) rem (w + 1)
      else (DispatchResult.connFailed, i + 1, w, false, last)
    | Outcome.serverDisconnected =>
      if rem > 0 then retryLoop outcomes now last (i + 1) rem (w + 1)
      else (DispatchResult.connFailed, i + 1, w, false, last)

/-- `FireTVClient._send_command_with_retry(command_func, name, max_retries)`:
optional wake step decided by `_should_wake_device`, then the bounded
retry loop. -/
def sendCommandWithRetry (outcomes : Nat → Outcome) (now last : Int)
    (maxRetries : Nat) : DispatchTrace :=
  let iw := shouldWakeDevice last now
  let r := retryLoop outcomes now last 0 maxRetries 0
  { result := r.1, attempts := r.2.1, initialWake := iw,
    retryWakes := r.2.2.1, clockUpdated := r.2.2.2.1,
    lastCommandTime := r.2.2.2.2 }

/-- Result of the public command wrappers. -/
inductive CommandResult where
  /-- the boolean the wrapper returns. -/
  | ok (b : Bool)
  /-- `TokenInvalidError` propagated to the caller. -/
  | tokenInvalid
  /-- `max_retries = 0`: the dispatcher returned `None` and the wrapper
  passes it through. -/
  | retNone
deriving DecidableEq, Repr

/-- The `try/except` wrapper shared by the public command methods:
`TokenInvalidError` is re-raised, any other exception becomes `False`,
a completed dispatch returns its value. -/
def commandWrapper (t : DispatchTrace) : CommandResult :=
  match t.result with
  | DispatchResult.success b => CommandResult.ok b
  | DispatchResult.tokenInvalid => CommandResult.tokenInvalid
  | DispatchResult.noAttempt => CommandResult.retNone
  | _ => CommandResult.ok false

/-- `FireTVClient.send_navigation_command(action)`: dispatch with the
default budget `max_retries = 2`. -/
def sendNavigationCommand (outcomes : Nat → Outcome) (now last : Int) :
    CommandResult :=
  commandWrapper (sendCommandWithRetry outcomes now last 2)

/-- `FireTVClient.send_media_command(action, ...)`: dispatch with the
default budget `max_retries = 2`. -/
def sendMediaCommand (outcomes : Nat → Outcome) (now last : Int) :
    CommandResult :=
  commandWrapper (sendCommandWithRetry outcomes now last 2)

/-- `FireTVClient.launch_app(package_name)`: dispatch with the default
budget `max_retries = 2`. -/
def launchApp (outcomes : Nat → Outcome) (now last : Int) : CommandResult :=
  commandWrapper (sendCommandWithRetry outcomes now last 2)

/-- Result of the `DriverSetupRequest` branch of `setup_handler` for a
message that carries a host. -/
inductive SetupStepResult where
  /-- `SetupError(CONNECTION_REFUSED)` after `test_connection` failed. -/
  | connectionRefused
  /-- the call `request_pin("UC Remote", max_retries=5, retry_delay=3.5)`
  raised `TypeError` (unexpected keyword arguments). -/
  | raisedTypeError
  /-- `SetupError(OTHER)` for a falsy PIN. -/
  | setupErrorOther
  /-- `RequestUserInput` PIN-entry screen. -/
  | pinEntryScreen
deriving DecidableEq, Repr

/-- The `DriverSetupRequest`-with-host branch of `setup_handler`
(`driver.py`): `test_connection(max_retries=3, retry_delay=3.0)` first;
on success it calls
`test_client.request_pin("UC Remote", max_retries=5, retry_delay=3.5)`,
which raises `TypeError` since `request_pin` declares neither keyword. -/
def setupHandlerHostBranch (connOutcomes pinOutcomes : Nat → Outcome) :
    SetupStepResult :=
  if testConnection 3 connOutcomes then
    if kwargsAccepted requestPinParamNames driverRequestPinKwargs then
      if requestPin pinOutcomes then SetupStepResult.pinEntryScreen
      else SetupStepResult.setupErrorOther
    else SetupStepResult.raisedTypeError
  else SetupStepResult.connectionRefused

/-- Modelled from the spec: the polling `request_pin(friendly_name,
max_retries, retry_delay) -> PIN | null` that `client.py` does not
implement — poll up to `max_retries` attempts, a non-empty PIN string on
attempt `i` is returned at once, null after exhausting retries with only
empty PINs.  `pins i` is the PIN value attempt `i` yields. -/
def requestPinSpecPolicy (maxRetries : Nat) (pins : Nat → String) : Option String :=
  go 0 maxRetries
where
  go : Nat → Nat → Option String
    | _, 0 => none
    | i, rem + 1 => if pins i ≠ "" then some (pins i) else go (i + 1) rem


/-! ## Theorems settling the claims -/

/-- C1 (code bug witness): `request_pin` as implemented accepts neither
`max_retries` nor `retry_delay` (so the driver's call
`request_pin("UC Remote", max_retries=5, retry_delay=3.5)` raises
`TypeError`), makes a single attempt returning a boolean rather than a PIN
(a timeout on the first attempt yields `False` even when the next attempt
would yield a non-empty PIN), while the specified polling policy returns
the PIN `"1234"` there. -/
theorem c1_request_pin_code_bug :
    kwargsAccepted requestPinParamNames driverRequestPinKwargs = false ∧
    requestPin (fun _ => Outcome.response 200 (some "1234")) = true ∧
    requestPin (fun i => if i = 0 then Outcome.timeout
                         else Outcome.response 200 (some "1234")) = false ∧
    requestPinSpecPolicy 5 (fun i => if i = 0 then "" else "1234") =
      some "1234" := by
  decide

/-- C2: `_initialize_entities` constructs `FireTVClient(host, token)`, so the
saved token binds to `port`, the client's `token` is `None`, and
`_get_headers` never emits `X-Client-Token`. -/
theorem c2_saved_token_binds_port (host tok : String) :
    (initializeEntitiesClient host tok).token = none ∧
    (initializeEntitiesClient host tok).port = PortVal.str tok ∧
    ∀ inc : Bool,
      (((getHeaders (initializeEntitiesClient host tok) inc).map
        Prod.fst).contains "X-Client-Token") = false := by
  refine ⟨rfl, rfl, fun inc => ?_⟩
  cases inc <;> rfl

/-- C3: whenever `test_connection` succeeds, `setup_handler`'s call
`request_pin("UC Remote", max_retries=5, retry_delay=3.5)` raises
`TypeError`, so the setup flow never reaches the PIN-entry screen on a
reachable device. -/
theorem c3_setup_raises_type_error (connOutcomes pinOutcomes : Nat → Outcome)
    (h : testConnection 3 connOutcomes = true) :
    setupHandlerHostBranch connOutcomes pinOutcomes =
      SetupStepResult.raisedTypeError := by
  unfold setupHandlerHostBranch
  rw [h]
  rfl

/-- C3 witness: a device answering 200 on the first probe. -/
theorem c3_setup_raises_type_error_witness :
    setupHandlerHostBranch (fun _ => Outcome.response 200 none)
      (fun _ => Outcome.response 200 none) =
      SetupStepResult.raisedTypeError :=
  c3_setup_raises_type_error _ _ (by decide)

/-- C7: a dispatch performs the initial wake step iff `last_command_time`
is 0 or `now - last_command_time` exceeds the 25-minute wake timeout. -/
theorem c7_wake_iff_idle (outcomes : Nat → Outcome) (now last : Int)
    (m : Nat) :
    (sendCommandWithRetry outcomes now last m).initialWake = true ↔
      (last = 0 ∨ now - last > 25 * 60) := by
  simp [sendCommandWithRetry, shouldWakeDevice, wakeTimeout]

/-- C9: `verify_pin` returns the body's `description` field on HTTP 200,
`None` on any other status or on any transport error, and its result
depends only on the first attempt outcome (no retry). -/
theorem c9_verify_pin (outcomes : Nat → Outcome) :
    (∀ b, outcomes 0 = Outcome.response 200 b → verifyPin outcomes = b) ∧
    (∀ s b, outcomes 0 = Outcome.response s b → s ≠ 200 →
      verifyPin outcomes = none) ∧
    (producedResponse (outcomes 0) = false → verifyPin outcomes = none) ∧
    (∀ outcomes2 : Nat → Outcome, outcomes 0 = outcomes2 0 →
      verifyPin outcomes = verifyPin outcomes2) := by
  refine ⟨?_, ?_, ?_, ?_⟩
  · intro b h; simp [verifyPin, h]
  · intro s b h hs; simp [verifyPin, h, hs]
  · intro h
    unfold verifyPin
    cases ho : outcomes 0 <;> simp_all [producedResponse]
  · intro o2 h
    unfold verifyPin
    rw [h]

/-- C9 witness: body `{"description": "tok-abc"}` under 200 yields
`"tok-abc"`; status 403 yields `None`. -/
theorem c9_verify_pin_witness :
    verifyPin (fun _ => Outcome.response 200 (some "tok-abc")) =
      some "tok-abc" ∧
    verifyPin (fun _ => Outcome.response 403 none) = none :=
  ⟨(c9_verify_pin _).1 (some "tok-abc") rfl,
   (c9_verify_pin _).2.1 403 none rfl (by decide)⟩

/-- C8 counterexample: for host `"LOCALHOST"` the client selects plaintext
HTTP although that host string is not in `{localhost, 127.0.0.1, 0.0.0.0}`:
the code compares `host.lower()` against the set. -/
theorem c8_counterexample :
    (mkClient "LOCALHOST" (PortVal.int 8080) none).useHttps = false ∧
    loopbackHosts.contains "LOCALHOST" = false := by
  constructor
  · rfl
  · rfl

/-- C8 (amended): a client selects plaintext HTTP exactly when the
lower-cased host is in `{localhost, 127.0.0.1, 0.0.0.0}`; every other host
gets an HTTPS session with hostname checking disabled and certificate
verification `CERT_NONE`. -/
theorem c8_transport_policy (host : String) (port : PortVal)
    (tok : Option String) :
    ((mkClient host port tok).useHttps = false ↔
      loopbackHosts.contains (pyLower host) = true) ∧
    ((mkClient host port tok).useHttps = false →
      ensureSessionTransport (mkClient host port tok) = Transport.http) ∧
    ((mkClient host port tok).useHttps = true →
      ensureSessionTransport (mkClient host port tok) =
        Transport.https false VerifyMode.certNone) := by
  refine ⟨?_, ?_, ?_⟩
  · simp [mkClient]
  · intro h; simp [ensureSessionTransport, h]
  · intro h; simp [ensureSessionTransport, h]

/-- C8 witness: a LAN address gets no-verification HTTPS, a loopback
address gets plaintext HTTP. -/
theorem c8_transport_policy_witness :
    ensureSessionTransport (mkClient "192.168.1.50" (PortVal.int 8080) none) =
      Transport.https false VerifyMode.certNone ∧
    ensureSessionTransport (mkClient "localhost" (PortVal.int 8080) none) =
      Transport.http :=
  ⟨(c8_transport_policy "192.168.1.50" (PortVal.int 8080) none).2.2 (by rfl),
   (c8_transport_policy "localhost" (PortVal.int 8080) none).2.1 (by rfl)⟩

/-- `test_connection` returns `False` iff no attempt within the budget
yields an accepted status. -/
theorem testConnectionGo_false_iff (outcomes : Nat → Outcome) :
    ∀ (rem i : Nat),
      (testConnectionGo outcomes i rem).1 = false ↔
        ∀ j, j < rem → acceptedOutcome (outcomes (i + j)) = false
  | 0, i => by simp [testConnectionGo]
  | rem + 1, i => by
    rw [testConnectionGo]
    by_cases h : acceptedOutcome (outcomes i) = true
    · simp only [h, if_true]
      constructor
      · intro hfalse; exact absurd hfalse (by simp)
      · intro hall
        have := hall 0 (Nat.succ_pos rem)
        rw [Nat.add_zero] at this
        rw [h] at this
        exact absurd this (by simp)
    · have hfalse : acceptedOutcome (outcomes i) = false := by
        simpa using h
      simp only [hfalse, if_false, Bool.false_eq_true]
      rw [testConnectionGo_false_iff outcomes rem (i + 1)]
      constructor
      · intro hall j hj
        match j, hj with
        | 0, _ => simpa using hfalse
        | j + 1, hj =>
          have := hall j (Nat.lt_of_succ_lt_succ hj)
          simpa [Nat.add_assoc, Nat.add_comm 1 j] using this
      · intro hall j hj
        have := hall (j + 1) (Nat.succ_lt_succ hj)
        simpa [Nat.add_assoc, Nat.add_comm 1 j] using this

/-- `test_connection` returns `True` after exactly `k + 1` attempts when
attempt `k` is the first accepted one. -/
theorem testConnectionGo_first_accept (outcomes : Nat → Outcome) :
    ∀ (k rem i : Nat), k < rem →
      acceptedOutcome (outcomes (i + k)) = true →
      (∀ j, j < k → acceptedOutcome (outcomes (i + j)) = false) →
      testConnectionGo outcomes i rem = (true, i + k + 1)
  | 0, rem, i, hk, hacc, _ => by
    match rem, hk with
    | rem + 1, _ =>
      rw [testConnectionGo]
      rw [Nat.add_zero] at hacc
      simp [hacc]
  | k + 1, rem, i, hk, hacc, hpre => by
    match rem, hk with
    | rem + 1, hk =>
      rw [testConnectionGo]
      have h0 : acceptedOutcome (outcomes i) = false := by
        simpa using hpre 0 (Nat.succ_pos k)
      simp only [h0, Bool.false_eq_true, if_false]
      have hacc2 : acceptedOutcome (outcomes (i + 1 + k)) = true := by
        simpa [Nat.add_assoc, Nat.add_comm 1 k] using hacc
      have hpre2 : ∀ j, j < k → acceptedOutcome (outcomes (i + 1 + j)) = false := by
        intro j hj
        have := hpre (j + 1) (Nat.succ_lt_succ hj)
        simpa [Nat.add_assoc, Nat.add_comm 1 j] using this
      have := testConnectionGo_first_accept outcomes k rem (i + 1)
        (Nat.lt_of_succ_lt_succ hk) hacc2 hpre2
      rw [this]
      congr 1
      omega

/-- C6 counterexample: with every attempt answering HTTP 500,
`test_connection(max_retries=3)` returns `False` although every attempt
produced a response — refuting "returns false only after all attempts fail
to produce any response". -/
theorem c6_counterexample :
    testConnection 3 (fun _ => Outcome.response 500 none) = false ∧
    producedResponse ((fun _ => Outcome.response 500 none : Nat → Outcome) 0)
      = true := by
  decide

/-- C6 (amended): `test_connection` returns `True` as soon as an attempt
yields a status in `{200, 400, 401, 403, 404, 405}`, performing no further
attempt; it returns `False` exactly when no attempt within `max_retries`
yields an accepted status (whether by unexpected status, timeout, or
connector error). -/
theorem c6_test_connection (m : Nat) (outcomes : Nat → Outcome) :
    (testConnection m outcomes = false ↔
      ∀ i, i < m → acceptedOutcome (outcomes i) = false) ∧
    (∀ i, i < m → acceptedOutcome (outcomes i) = true →
      (∀ j, j < i → acceptedOutcome (outcomes j) = false) →
      testConnectionFull m outcomes = (true, i + 1)) := by
  constructor
  · unfold testConnection testConnectionFull
    rw [testConnectionGo_false_iff outcomes m 0]
    simp
  · intro i hi hacc hpre
    unfold testConnectionFull
    have := testConnectionGo_first_accept outcomes i m 0 hi
      (by simpa using hacc) (by simpa using hpre)
    simpa using this

/-- C6 witness: a device answering 403 on the second attempt is declared
reachable after exactly two attempts. -/
theorem c6_test_connection_witness :
    testConnectionFull 3
      (fun i => if i = 0 then Outcome.timeout else Outcome.response 403 none)
      = (true, 2) :=
  (c6_test_connection 3 _).2 1 (by decide) (by decide) (by decide)


/-- Connector-level failures before attempt `k` make the retry loop advance
to attempt `k`, performing one wake + session recreation per failure. -/
theorem retryLoop_conn_prefix (outcomes : Nat → Outcome) (now last : Int) :
    ∀ (k i rem w : Nat),
      (∀ j, j < k → isConnectorFailure (outcomes (i + j)) = true) →
      k < rem →
      retryLoop outcomes now last i rem w =
        retryLoop outcomes now last (i + k) (rem - k) (w + k)
  | 0, i, rem, w, _, _ => by simp
  | k + 1, i, rem, w, hpre, hk => by
    match rem, hk with
    | rem + 1, hk =>
      have h0 : isConnectorFailure (outcomes i) = true := by
        simpa using hpre 0 (Nat.succ_pos k)
      have hrem : rem > 0 := by omega
      have hstep : retryLoop outcomes now last i (rem + 1) w =
          retryLoop outcomes now last (i + 1) rem (w + 1) := by
        rw [retryLoop]
        cases ho : outcomes i with
        | response s b => rw [ho] at h0; simp [isConnectorFailure] at h0
        | timeout => rw [ho] at h0; simp [isConnectorFailure] at h0
        | otherError => rw [ho] at h0; simp [isConnectorFailure] at h0
        | connError => simp [hrem]
        | serverDisconnected => simp [hrem]
      rw [hstep]
      have ih := retryLoop_conn_prefix outcomes now last k (i + 1) rem (w + 1)
        (fun j hj => by
          simpa [Nat.add_assoc, Nat.add_comm 1 j] using
            hpre (j + 1) (Nat.succ_lt_succ hj))
        (by omega)
      rw [ih]
      have e1 : i + 1 + k = i + (k + 1) := by omega
      have e2 : rem - k = rem + 1 - (k + 1) := by omega
      have e3 : w + 1 + k = w + (k + 1) := by omega
      rw [e1, e2, e3]

/-- After a run of connector failures, an HTTP 401/403 response stops the
retry loop at once with `TokenInvalidError`, leaving the clock untouched. -/
theorem retryLoop_auth (outcomes : Nat → Outcome) (now last : Int)
    (k m s : Nat) (b : Option String)
    (hpre : ∀ j, j < k → isConnectorFailure (outcomes j) = true)
    (hk : outcomes k = Outcome.response s b)
    (hs : s = 401 ∨ s = 403) (hm : k < m) :
    retryLoop outcomes now last 0 m 0 =
      (DispatchResult.tokenInvalid, k + 1, k, false, last) := by
  have h1 := retryLoop_conn_prefix outcomes now last k 0 m 0
    (by intro j hj; simpa using hpre j hj) hm
  simp only [Nat.zero_add] at h1
  rw [h1]
  have hmk : m - k = (m - k - 1) + 1 := by omega
  rw [hmk, retryLoop]
  rcases hs with rfl | rfl <;> simp [hk]

/-- The retry loop makes at most `rem` further attempts. -/
theorem retryLoop_attempts_le (outcomes : Nat → Outcome) (now last : Int) :
    ∀ (rem i w : Nat),
      (retryLoop outcomes now last i rem w).2.1 ≤ i + rem
  | 0, i, w => by simp [retryLoop]
  | rem + 1, i, w => by
    rw [retryLoop]
    cases ho : outcomes i with
    | response s b =>
      by_cases h4 : s ≥ 400
      · by_cases ha : (s == 401 || s == 403) = true <;> simp [h4, ha]
      · simp [h4]
    | timeout => simp
    | otherError => simp
    | connError =>
      by_cases hr : rem > 0
      · simp only [hr, if_true]
        have := retryLoop_attempts_le outcomes now last rem (i + 1) (w + 1)
        omega
      · simp [hr]
    | serverDisconnected =>
      by_cases hr : rem > 0
      · simp only [hr, if_true]
        have := retryLoop_attempts_le outcomes now last rem (i + 1) (w + 1)
        omega
      · simp [hr]

/-- A connector-exhaustion failure uses every remaining attempt and wakes
between consecutive attempts. -/
theorem retryLoop_connFailed (outcomes : Nat → Outcome) (now last : Int) :
    ∀ (rem i w : Nat),
      (retryLoop outcomes now last i rem w).1 = DispatchResult.connFailed →
      (retryLoop outcomes now last i rem w).2.1 = i + rem ∧
      (retryLoop outcomes now last i rem w).2.2.1 = w + rem - 1
  | 0, i, w => by intro h; simp [retryLoop] at h
  | rem + 1, i, w => by
    intro h
    rw [retryLoop] at h ⊢
    cases ho : outcomes i with
    | response s b =>
      rw [ho] at h
      by_cases h4 : s ≥ 400
      · by_cases ha : (s == 401 || s == 403) = true <;> simp [h4, ha] at h
      · simp [h4] at h
    | timeout => rw [ho] at h; simp at h
    | otherError => rw [ho] at h; simp at h
    | connError =>
      rw [ho] at h
      by_cases hr : rem > 0
      · simp only [hr, if_true] at h ⊢
        have := retryLoop_connFailed outcomes now last rem (i + 1) (w + 1) h
        omega
      · simp [hr] at h ⊢
        omega
    | serverDisconnected =>
      rw [ho] at h
      by_cases hr : rem > 0
      · simp only [hr, if_true] at h ⊢
        have := retryLoop_connFailed outcomes now last rem (i + 1) (w + 1) h
        omega
      · simp [hr] at h ⊢
        omega

/-- The idle clock is touched exactly on a completed attempt: the loop
updates `last_command_time` to `now` iff it returns `success`, the success
value is `status == 200` for a completed attempt with status < 400, and
every raising exit leaves the clock alone. -/
theorem retryLoop_clock (outcomes : Nat → Outcome) (now last : Int) :
    ∀ (rem i w : Nat),
      ((retryLoop outcomes now last i rem w).2.2.2.1 = true ↔
        ∃ b, (retryLoop outcomes now last i rem w).1 =
          DispatchResult.success b) ∧
      ((retryLoop outcomes now last i rem w).2.2.2.2 =
        if (retryLoop outcomes now last i rem w).2.2.2.1 then now else last) ∧
      (∀ b, (retryLoop outcomes now last i rem w).1 =
          DispatchResult.success b →
        ∃ j s body, j < rem ∧ outcomes (i + j) = Outcome.response s body ∧
          s < 400 ∧ b = (s == 200))
  | 0, i, w => by simp [retryLoop]
  | rem + 1, i, w => by
    rw [retryLoop]
    cases ho : outcomes i with
    | response s b =>
      by_cases h4 : s ≥ 400
      · by_cases ha : (s == 401 || s == 403) = true <;> simp [h4, ha]
      · simp only [h4, if_false]
        refine ⟨by simp, by simp, ?_⟩
        intro b2 hb
        simp only [DispatchResult.success.injEq] at hb
        exact ⟨0, s, b, Nat.succ_pos rem, by simpa using ho, by omega, hb.symm⟩
    | timeout => simp
    | otherError => simp
    | connError =>
      by_cases hr : rem > 0
      · simp only [hr, if_true]
        have ih := retryLoop_clock outcomes now last rem (i + 1) (w + 1)
        refine ⟨ih.1, ih.2.1, ?_⟩
        intro b hb
        obtain ⟨j, s, body, hj, hojs, hs4, hbs⟩ := ih.2.2 b hb
        exact ⟨j + 1, s, body, Nat.succ_lt_succ hj,
          by simpa [Nat.add_assoc, Nat.add_comm 1 j] using hojs, hs4, hbs⟩
      · simp [hr]
    | serverDisconnected =>
      by_cases hr : rem > 0
      · simp only [hr, if_true]
        have ih := retryLoop_clock outcomes now last rem (i + 1) (w + 1)
        refine ⟨ih.1, ih.2.1, ?_⟩
        intro b hb
        obtain ⟨j, s, body, hj, hojs, hs4, hbs⟩ := ih.2.2 b hb
        exact ⟨j + 1, s, body, Nat.succ_lt_succ hj,
          by simpa [Nat.add_assoc, Nat.add_comm 1 j] using hojs, hs4, hbs⟩
      · simp [hr]


/-- A budget of `rem ≥ 1` attempts that all fail at connector level ends in
`connFailed` after exactly `rem` attempts with `rem - 1` wakes in between,
leaving the clock untouched. -/
theorem retryLoop_all_conn (outcomes : Nat → Outcome) (now last : Int) :
    ∀ (rem i w : Nat), rem > 0 →
      (∀ j, j < rem → isConnectorFailure (outcomes (i + j)) = true) →
      retryLoop outcomes now last i rem w =
        (DispatchResult.connFailed, i + rem, w + rem - 1, false, last)
  | 0, i, w, hrem, _ => absurd hrem (by omega)
  | rem + 1, i, w, _, hall => by
    have h0 : isConnectorFailure (outcomes i) = true := by
      simpa using hall 0 (Nat.succ_pos rem)
    rw [retryLoop]
    cases ho : outcomes i with
    | response s b => rw [ho] at h0; simp [isConnectorFailure] at h0
    | timeout => rw [ho] at h0; simp [isConnectorFailure] at h0
    | otherError => rw [ho] at h0; simp [isConnectorFailure] at h0
    | connError =>
      by_cases hr : rem > 0
      · simp only [hr, if_true]
        have ih := retryLoop_all_conn outcomes now last rem (i + 1) (w + 1) hr
          (fun j hj => by
            simpa [Nat.add_assoc, Nat.add_comm 1 j] using
              hall (j + 1) (Nat.succ_lt_succ hj))
        rw [ih]
        have e1 : i + 1 + rem = i + (rem + 1) := by omega
        have e2 : w + 1 + rem - 1 = w + (rem + 1) - 1 := by omega
        rw [e1, e2]
      · have : rem = 0 := by omega
        subst this
        simp
    | serverDisconnected =>
      by_cases hr : rem > 0
      · simp only [hr, if_true]
        have ih := retryLoop_all_conn outcomes now last rem (i + 1) (w + 1) hr
          (fun j hj => by
            simpa [Nat.add_assoc, Nat.add_comm 1 j] using
              hall (j + 1) (Nat.succ_lt_succ hj))
        rw [ih]
        have e1 : i + 1 + rem = i + (rem + 1) := by omega
        have e2 : w + 1 + rem - 1 = w + (rem + 1) - 1 := by omega
        rw [e1, e2]
      · have : rem = 0 := by omega
        subst this
        simp

/-- C4: an HTTP 401/403 outcome makes the dispatcher raise
`TokenInvalidError` at once — one attempt past the connector-failure
prefix, however much retry budget remains, idle clock untouched — and the
error propagates through `send_navigation_command`, `send_media_command`
and `launch_app` instead of being converted to a boolean failure. -/
theorem c4_auth_invalid_propagates (outcomes : Nat → Outcome) (now last : Int)
    (m k s : Nat) (b : Option String)
    (hpre : ∀ j, j < k → isConnectorFailure (outcomes j) = true)
    (hk : outcomes k = Outcome.response s b)
    (hs : s = 401 ∨ s = 403) (hm : k < m) :
    ((sendCommandWithRetry outcomes now last m).result =
        DispatchResult.tokenInvalid ∧
      (sendCommandWithRetry outcomes now last m).attempts = k + 1 ∧
      (sendCommandWithRetry outcomes now last m).lastCommandTime = last ∧
      commandWrapper (sendCommandWithRetry outcomes now last m) =
        CommandResult.tokenInvalid) ∧
    (k < 2 →
      sendNavigationCommand outcomes now last = CommandResult.tokenInvalid ∧
      sendMediaCommand outcomes now last = CommandResult.tokenInvalid ∧
      launchApp outcomes now last = CommandResult.tokenInvalid) := by
  have hloop := retryLoop_auth outcomes now last k m s b hpre hk hs hm
  constructor
  · simp [sendCommandWithRetry, hloop, commandWrapper]
  · intro hk2
    have h2 := retryLoop_auth outcomes now last k 2 s b hpre hk hs hk2
    simp [sendNavigationCommand, sendMediaCommand, launchApp,
      sendCommandWithRetry, h2, commandWrapper]

/-- C4 witness: a 401 on the first attempt with budget 3. -/
theorem c4_auth_invalid_propagates_witness :
    sendNavigationCommand (fun _ => Outcome.response 401 none) 10 5 =
      CommandResult.tokenInvalid ∧
    (sendCommandWithRetry (fun _ => Outcome.response 401 none) 10 5 3).attempts
      = 1 := by
  have h := c4_auth_invalid_propagates (fun _ => Outcome.response 401 none)
    10 5 3 0 401 none (fun j hj => absurd hj (Nat.not_lt_zero j)) rfl
    (Or.inl rfl) (by omega)
  exact ⟨(h.2 (by omega)).1, h.1.2.1⟩

/-- C5: the dispatcher makes at most `max_retries` underlying attempts; a
connector-exhaustion failure consumes exactly the whole budget with a wake
plus session recreation between consecutive attempts; with budget 2 and
connector errors on the first two attempts the call fails after exactly 2
attempts — whatever a third attempt would have returned — and the wrapper
reports `False`. -/
theorem c5_connector_retry_budget (outcomes : Nat → Outcome) (now last : Int)
    (m : Nat) :
    ((sendCommandWithRetry outcomes now last m).attempts ≤ m) ∧
    ((sendCommandWithRetry outcomes now last m).result =
        DispatchResult.connFailed →
      (sendCommandWithRetry outcomes now last m).attempts = m ∧
      (sendCommandWithRetry outcomes now last m).retryWakes = m - 1) ∧
    (m = 2 → outcomes 0 = Outcome.connError → outcomes 1 = Outcome.connError →
      (sendCommandWithRetry outcomes now last m).result =
          DispatchResult.connFailed ∧
      (sendCommandWithRetry outcomes now last m).attempts = 2 ∧
      (sendCommandWithRetry outcomes now last m).retryWakes = 1 ∧
      commandWrapper (sendCommandWithRetry outcomes now last m) =
        CommandResult.ok false) := by
  refine ⟨?_, ?_, ?_⟩
  · have := retryLoop_attempts_le outcomes now last m 0 0
    simpa [sendCommandWithRetry] using this
  · intro h
    have h2 := retryLoop_connFailed outcomes now last m 0 0
      (by simpa [sendCommandWithRetry] using h)
    constructor
    · simpa [sendCommandWithRetry] using h2.1
    · simpa [sendCommandWithRetry] using h2.2
  · rintro rfl h0 h1
    have hall : ∀ j, j < 2 → isConnectorFailure (outcomes (0 + j)) = true := by
      intro j hj
      match j, hj with
      | 0, _ => simpa [isConnectorFailure] using congrArg isConnectorFailure h0
      | 1, _ => simpa [isConnectorFailure] using congrArg isConnectorFailure h1
    have hloop := retryLoop_all_conn outcomes now last 2 0 0 (by omega) hall
    simp [sendCommandWithRetry, hloop, commandWrapper]

/-- C5 witness: connector errors on the first two attempts, a 200 ready on
the third, budget 2: the dispatch still fails. -/
theorem c5_connector_retry_budget_witness :
    (sendCommandWithRetry
        (fun i => if i < 2 then Outcome.connError else Outcome.response 200 none)
        10 5 2).result = DispatchResult.connFailed ∧
    (sendCommandWithRetry
        (fun i => if i < 2 then Outcome.connError else Outcome.response 200 none)
        10 5 2).attempts = 2 ∧
    (sendCommandWithRetry
        (fun i => if i < 2 then Outcome.connError else Outcome.response 200 none)
        10 5 2).retryWakes = 1 ∧
    commandWrapper (sendCommandWithRetry
        (fun i => if i < 2 then Outcome.connError else Outcome.response 200 none)
        10 5 2) = CommandResult.ok false :=
  (c5_connector_retry_budget _ 10 5 2).2.2 rfl (by decide) (by decide)

/-- C10 counterexample: an HTTP 204 outcome completes without raising, so
`_update_command_time` runs and the idle clock moves to `now`, yet the
dispatch returns `False` — refuting "updated exactly when the request
succeeds with HTTP 200, in which case the dispatch returns true". -/
theorem c10_counterexample :
    (sendCommandWithRetry (fun _ => Outcome.response 204 none) 10 5 2).clockUpdated
      = true ∧
    (sendCommandWithRetry (fun _ => Outcome.response 204 none) 10 5 2).lastCommandTime
      = 10 ∧
    (sendCommandWithRetry (fun _ => Outcome.response 204 none) 10 5 2).result
      = DispatchResult.success false := by
  decide

/-- C10 (amended): the idle clock is updated to `now` exactly when an
attempt completes without raising — any HTTP status below 400 — in which
case the dispatch returns the attempt's boolean value `status == 200`; on
every raising outcome (auth error, other HTTP error, connector exhaustion,
other exception) the clock is left unchanged. -/
theorem c10_idle_clock (outcomes : Nat → Outcome) (now last : Int) (m : Nat) :
    ((sendCommandWithRetry outcomes now last m).clockUpdated = true ↔
      ∃ b, (sendCommandWithRetry outcomes now last m).result =
        DispatchResult.success b) ∧
    ((sendCommandWithRetry outcomes now last m).lastCommandTime =
      if (sendCommandWithRetry outcomes now last m).clockUpdated then now
      else last) ∧
    (∀ b, (sendCommandWithRetry outcomes now last m).result =
        DispatchResult.success b →
      ∃ i s body, i < m ∧ outcomes i = Outcome.response s body ∧
        s < 400 ∧ b = (s == 200)) := by
  have h := retryLoop_clock outcomes now last m 0 0
  refine ⟨?_, ?_, ?_⟩
  · simpa [sendCommandWithRetry] using h.1
  · simpa [sendCommandWithRetry] using h.2.1
  · intro b hb
    obtain ⟨j, s, body, hj, ho, hs, hbs⟩ :=
      h.2.2 b (by simpa [sendCommandWithRetry] using hb)
    exact ⟨j, s, body, hj, by simpa using ho, hs, hbs⟩

/-- C10 witness: a 200 on the first attempt updates the clock and returns
`True`; the amended theorem locates the completing attempt. -/
theorem c10_idle_clock_witness :
    ∃ i s body, i < 2 ∧
      (fun _ => Outcome.response 200 none : Nat → Outcome) i =
        Outcome.response s body ∧
      s < 400 ∧ true = (s == 200) :=
  (c10_idle_clock (fun _ => Outcome.response 200 none) 10 5 2).2.2 true
    (by decide)

end FireTV
